import Mathlib

/-!
Shallow embedding of `src/single_level_paid_rpt_loss.py`.

The source file defines one function, `single_level_paid_rpt_loss_model`,
which builds a declarative PyMC model: a coordinate dictionary followed by a
linear sequence of named random-variable declarations (priors, deterministic
transforms, and two Gamma likelihood terms with observed data).

The embedding mirrors that declaration sequence exactly:
* `Expr` is the language of the tensor expressions appearing in the source
  (variables, `pm.math.exp`, `*`, `/`, `** n`);
* `PriorDist` is the tagged variant of prior-distribution constructors used by the
  source (`Normal(mu, sd)`, `Uniform(lower, upper)`, `HalfNormal(sd)`);
* `Decl` is one registered model variable: a free (prior) variable, a
  `Deterministic`, or an observed Gamma likelihood term;
* `PmModel` is the returned model object: the `coords` dictionary entries
  (the source stores both axis label lists and both observed matrices in
  `coords`) together with the ordered declaration list;
* `single_level_paid_rpt_loss_model` transcribes the Python function.

Numeric literals of the source are carried as rationals; the cell-level
semantics of the expressions is given by `Expr.evalWith`, an evaluator over an
arbitrary field together with an interpretation of `exp` (instantiated with
`Real.exp` at type `ℝ` in the theorems).
-/

/-- Tensor expressions occurring in the source: references to earlier named
model variables, `pm.math.exp`, elementwise product, quotient, and natural
powers (the source only uses `** 2`). -/
inductive Expr where
  | var (name : String)
  | exp (e : Expr)
  | mul (a b : Expr)
  | div (a b : Expr)
  | pow (e : Expr) (n : Nat)
deriving DecidableEq, Repr

/-- Prior distribution constructors used by the source, with the numeric
parameters it passes (`Normal(mu=0, sd=10)`, `Uniform(lower, upper)`,
`HalfNormal(sd=10)`). -/
inductive PriorDist where
  | normal (mu sd : ℚ)
  | uniform (lower upper : ℚ)
  | halfNormal (sd : ℚ)
deriving DecidableEq, Repr

/-- One named variable registered in the model, in source order:

* `free name dist dims shape`: a prior random variable (`Normal`, `Uniform`,
  `HalfNormal` call), with its `dims=` strings and optional `shape=` argument.
  The source passes `shape=(coords["origin_period"].shape,
  coords["development_period"].shape)`: a pair of numpy shape tuples, embedded
  as a list of lists of extents.
* `det name e shape`: a `Deterministic(name, e)` call with its optional
  `shape=` argument.
* `obs name alpha beta observed dims`: an observed `Gamma(name, alpha=...,
  beta=..., observed=..., dims=...)` likelihood term. -/
inductive Decl where
  | free (name : String) (dist : PriorDist) (dims : List String)
      (shape : Option (List (List Nat)))
  | det (name : String) (e : Expr) (shape : Option (List (List Nat)))
  | obs (name : String) (alpha beta : Expr) (observed : List (List ℚ))
      (dims : List String)
deriving DecidableEq, Repr

/-- The registered name of a declaration. -/
def Decl.name : Decl → String
  | .free n _ _ _ => n
  | .det n _ _ => n
  | .obs n _ _ _ _ => n

/-- The model object returned by the source function: the four entries the
source stores in the `coords` dictionary (note that the source puts the two
observed loss matrices into `coords` alongside the axis label lists), plus the
ordered list of registered variable declarations. -/
structure PmModel where
  coords_origin_period : List String
  coords_development_period : List String
  coords_observed_rpt_loss : List (List ℚ)
  coords_observed_paid_loss : List (List ℚ)
  decls : List Decl
deriving DecidableEq, Repr

/-- Transcription of `single_level_paid_rpt_loss_model` from
`src/single_level_paid_rpt_loss.py`.  The declaration order, variable names,
distribution parameters, `dims=` strings, `shape=` arguments and the Gamma
`alpha`/`beta` expressions are taken verbatim from the source.  The trailing
`**kwargs` of the Python signature is embedded as an explicit `kwargs`
association list; the source never uses it. -/
def single_level_paid_rpt_loss_model
    (origin_period development_period : List String)
    (observed_rpt_loss observed_paid_loss : List (List ℚ))
    (kwargs : List (String × String)) : PmModel :=
  { coords_origin_period := origin_period
    coords_development_period := development_period
    coords_observed_rpt_loss := observed_rpt_loss
    coords_observed_paid_loss := observed_paid_loss
    decls :=
      [ Decl.free "log__expected_ult__loss" (.normal 0 10) ["origin_period"]
          none,
        Decl.free "expected_pct_of_ult__rpt_loss" (.uniform 0 2)
          ["development_period"] none,
        Decl.free "expected_pct_of_ult__paid_loss" (.uniform 0 1.2)
          ["development_period"] none,
        Decl.free "sigma__rpt_loss" (.halfNormal 10) ["origin_period"]
          (some [[origin_period.length], [development_period.length]]),
        Decl.free "sigma__paid_loss" (.halfNormal 10) ["origin_period"]
          (some [[origin_period.length], [development_period.length]]),
        Decl.det "expected_ult__loss"
          (.exp (.var "log__expected_ult__loss")) none,
        Decl.det "mu__rpt_loss"
          (.mul (.var "expected_ult__loss")
            (.var "expected_pct_of_ult__rpt_loss"))
          (some [[origin_period.length], [development_period.length]]),
        Decl.det "mu__paid_loss"
          (.mul (.var "expected_ult__loss")
            (.var "expected_pct_of_ult__paid_loss"))
          (some [[origin_period.length], [development_period.length]]),
        Decl.obs "rpt_loss"
          (.div (.var "mu__rpt_loss") (.pow (.var "sigma__rpt_loss") 2))
          (.div (.pow (.var "sigma__rpt_loss") 2) (.var "mu__rpt_loss"))
          observed_rpt_loss ["origin_period", "development_period"],
        Decl.obs "paid_loss"
          (.div (.var "mu__paid_loss") (.pow (.var "sigma__paid_loss") 2))
          (.div (.pow (.var "sigma__paid_loss") 2) (.var "mu__paid_loss"))
          observed_paid_loss ["origin_period", "development_period"] ] }

/-- Cell-level evaluation of an expression over a field `K`, given an
interpretation `expF` of `pm.math.exp` and an environment assigning a value to
each named model variable at the cell in question.  At `K = ℝ` the intended
interpretation is `expF = Real.exp`. -/
def Expr.evalWith {K : Type} [Field K] (expF : K → K) (env : String → K) :
    Expr → K
  | .var n => env n
  | .exp e => expF (e.evalWith expF env)
  | .mul a b => a.evalWith expF env * b.evalWith expF env
  | .div a b => a.evalWith expF env / b.evalWith expF env
  | .pow e n => e.evalWith expF env ^ n

/-- Extending a cell environment with one declaration: a `Deterministic`
binds its name to the value of its expression in the current environment;
prior and observed declarations do not alter the environment (their values at
the cell are the environment's business, resp. fixed data). -/
def extendEnv {K : Type} [Field K] (expF : K → K) (env : String → K) :
    Decl → (String → K)
  | .det n e _ => fun m => if m = n then e.evalWith expF env else env m
  | _ => env

/-- Running a declaration list in order over an initial environment of latent
(prior) values, producing the environment in which all `Deterministic`
variables have been computed from their defining expressions. -/
def runDecls {K : Type} [Field K] (expF : K → K) (env : String → K) :
    List Decl → (String → K)
  | [] => env
  | d :: ds => runDecls expF (extendEnv expF env d) ds

/-- The first declaration of a model registered under a given name. -/
def findDecl (m : PmModel) (n : String) : Option Decl :=
  m.decls.find? (fun d => d.name == n)

/-- The `alpha` expression of the observed Gamma declaration of that name
(`Expr.var "missing"` if no such declaration exists). -/
def gammaAlpha (m : PmModel) (n : String) : Expr :=
  match findDecl m n with
  | some (.obs _ a _ _ _) => a
  | _ => .var "missing"

/-- The `beta` expression of the observed Gamma declaration of that name
(`Expr.var "missing"` if no such declaration exists). -/
def gammaBeta (m : PmModel) (n : String) : Expr :=
  match findDecl m n with
  | some (.obs _ _ b _ _) => b
  | _ => .var "missing"

/-- The names of all variables registered in the model, in source order. -/
def declNames (m : PmModel) : List String :=
  m.decls.map Decl.name

/-- One cell-level assignment of values to the latent (prior) parameters of
the model: one value per origin period for the log ultimate loss, one per
development period for each reporting/payment pattern, one per cell for each
dispersion parameter. -/
structure Latents (O D : Nat) where
  log_eul : Fin O → ℝ
  pct_rpt : Fin D → ℝ
  pct_paid : Fin D → ℝ
  sigma_rpt : Fin O → Fin D → ℝ
  sigma_paid : Fin O → Fin D → ℝ

/-- The initial environment at cell `(o, d)` induced by a latent assignment:
it interprets exactly the five free (prior) variable names of the source, at
the index slices the source's `dims`/broadcasting give them. -/
def cellLatentEnv {O D : Nat} (L : Latents O D) (o : Fin O) (d : Fin D) :
    String → ℝ := fun n =>
  if n = "log__expected_ult__loss" then L.log_eul o
  else if n = "expected_pct_of_ult__rpt_loss" then L.pct_rpt d
  else if n = "expected_pct_of_ult__paid_loss" then L.pct_paid d
  else if n = "sigma__rpt_loss" then L.sigma_rpt o d
  else if n = "sigma__paid_loss" then L.sigma_paid o d
  else 0

/-- A matrix (list of rows) has every entry strictly positive. -/
def strictlyPos (m : List (List ℚ)) : Prop :=
  ∀ row ∈ m, ∀ x ∈ row, 0 < x

instance (m : List (List ℚ)) : Decidable (strictlyPos m) := by
  unfold strictlyPos; infer_instance

/-- A matrix (list of rows) has `rows` rows, each of length `cols`. -/
def hasShape (m : List (List ℚ)) (rows cols : Nat) : Prop :=
  m.length = rows ∧ ∀ row ∈ m, row.length = cols

instance (m : List (List ℚ)) (rows cols : Nat) :
    Decidable (hasShape m rows cols) := by
  unfold hasShape; infer_instance

/-- The flattening of a `shape=` annotation (a tuple of numpy shape tuples)
into a single list of extents. -/
def flatShape (s : Option (List (List Nat))) : List Nat :=
  (s.getD []).flatten

/-- The cell-level environment of the model built from the given inputs, at
cell `(o, d)` of a latent assignment: all `Deterministic` variables evaluated
from their defining expressions, over `Real.exp` for `pm.math.exp`. -/
noncomputable def modelCellEnv {O D : Nat}
    (origin_period development_period : List String)
    (observed_rpt_loss observed_paid_loss : List (List ℚ))
    (kwargs : List (String × String))
    (L : Latents O D) (o : Fin O) (d : Fin D) : String → ℝ :=
  runDecls Real.exp (cellLatentEnv L o d)
    (single_level_paid_rpt_loss_model origin_period development_period
      observed_rpt_loss observed_paid_loss kwargs).decls

/-- A concrete cell environment assigning the value 1 to the reported-loss
dispersion variable and 2 to every other variable (in particular to the
reported-loss mean). -/
def envTwoOne : String → ℝ := fun n =>
  if n = "sigma__rpt_loss" then 1 else 2

/-- C1 counterexample: at a concrete valid input (O = 3 origin periods, D = 2
development periods, both observed matrices strictly positive with shape
3 × 2) the constructed model does not expose a variable named
`log_expected_ultimate_loss`, nor one named `reported_loss`: the source
registers its variables under the names `log__expected_ult__loss`, ...,
`rpt_loss` instead. -/
theorem C1_variable_names_counterexample :
    1 ≤ (["2019", "2020", "2021"] : List String).length ∧
    1 ≤ (["12", "24"] : List String).length ∧
    hasShape [[100, 150], [120, 180], [90, 140]] 3 2 ∧
    hasShape [[80, 130], [90, 150], [70, 110]] 3 2 ∧
    strictlyPos [[100, 150], [120, 180], [90, 140]] ∧
    strictlyPos [[80, 130], [90, 150], [70, 110]] ∧
    "log_expected_ultimate_loss" ∉
      declNames (single_level_paid_rpt_loss_model ["2019", "2020", "2021"]
        ["12", "24"] [[100, 150], [120, 180], [90, 140]]
        [[80, 130], [90, 150], [70, 110]] []) ∧
    "reported_loss" ∉
      declNames (single_level_paid_rpt_loss_model ["2019", "2020", "2021"]
        ["12", "24"] [[100, 150], [120, 180], [90, 140]]
        [[80, 130], [90, 150], [70, 110]] []) := by
  decide

/-- C1 amended: for every input with O, D ≥ 1 and both observed matrices
strictly positive of shape O × D, construction succeeds (the builder is total)
and the model exposes exactly ten variables, registered in source order under
the source's names `log__expected_ult__loss`, `expected_pct_of_ult__rpt_loss`,
`expected_pct_of_ult__paid_loss`, `sigma__rpt_loss`, `sigma__paid_loss`,
`expected_ult__loss`, `mu__rpt_loss`, `mu__paid_loss`, `rpt_loss`,
`paid_loss`. -/
theorem C1_exposes_ten_variables
    (op dp : List String) (r p : List (List ℚ)) (k : List (String × String))
    (_hO : 1 ≤ op.length) (_hD : 1 ≤ dp.length)
    (_hr : hasShape r op.length dp.length)
    (_hp : hasShape p op.length dp.length)
    (_hrpos : strictlyPos r) (_hppos : strictlyPos p) :
    declNames (single_level_paid_rpt_loss_model op dp r p k) =
      ["log__expected_ult__loss", "expected_pct_of_ult__rpt_loss",
       "expected_pct_of_ult__paid_loss", "sigma__rpt_loss",
       "sigma__paid_loss", "expected_ult__loss", "mu__rpt_loss",
       "mu__paid_loss", "rpt_loss", "paid_loss"] :=
  rfl

/-- C1 witness: the amended claim applied at the concrete scenario input. -/
theorem C1_exposes_ten_variables_witness :
    declNames (single_level_paid_rpt_loss_model ["2019", "2020", "2021"]
        ["12", "24"] [[100, 150], [120, 180], [90, 140]]
        [[80, 130], [90, 150], [70, 110]] []) =
      ["log__expected_ult__loss", "expected_pct_of_ult__rpt_loss",
       "expected_pct_of_ult__paid_loss", "sigma__rpt_loss",
       "sigma__paid_loss", "expected_ult__loss", "mu__rpt_loss",
       "mu__paid_loss", "rpt_loss", "paid_loss"] :=
  C1_exposes_ten_variables ["2019", "2020", "2021"] ["12", "24"]
    [[100, 150], [120, 180], [90, 140]] [[80, 130], [90, 150], [70, 110]] []
    (by decide) (by decide) (by decide) (by decide) (by decide) (by decide)

/-- C2: in the constructed model, the Gamma likelihood parameters of both the
reported-loss and the paid-loss term evaluate, at every cell environment, to
exactly `alpha = mu / sigma ^ 2` and `beta = sigma ^ 2 / mu`, with `mu` and
`sigma` the corresponding deterministic mean and dispersion variables. -/
theorem C2_gamma_parameter_formulas
    (op dp : List String) (r p : List (List ℚ)) (k : List (String × String))
    (env : String → ℝ) :
    (gammaAlpha (single_level_paid_rpt_loss_model op dp r p k)
        "rpt_loss").evalWith Real.exp env =
      env "mu__rpt_loss" / env "sigma__rpt_loss" ^ 2 ∧
    (gammaBeta (single_level_paid_rpt_loss_model op dp r p k)
        "rpt_loss").evalWith Real.exp env =
      env "sigma__rpt_loss" ^ 2 / env "mu__rpt_loss" ∧
    (gammaAlpha (single_level_paid_rpt_loss_model op dp r p k)
        "paid_loss").evalWith Real.exp env =
      env "mu__paid_loss" / env "sigma__paid_loss" ^ 2 ∧
    (gammaBeta (single_level_paid_rpt_loss_model op dp r p k)
        "paid_loss").evalWith Real.exp env =
      env "sigma__paid_loss" ^ 2 / env "mu__paid_loss" :=
  ⟨rfl, rfl, rfl, rfl⟩

/-- C4: for every latent assignment and every cell `(o, d)`, the deterministic
variables of the constructed model satisfy `expected_ult__loss = exp
(log__expected_ult__loss)`, `mu__rpt_loss = expected_ult__loss *
expected_pct_of_ult__rpt_loss` and `mu__paid_loss = expected_ult__loss *
expected_pct_of_ult__paid_loss`. -/
theorem C4_deterministic_relations {O D : Nat}
    (op dp : List String) (r p : List (List ℚ)) (k : List (String × String))
    (L : Latents O D) (o : Fin O) (d : Fin D) :
    modelCellEnv op dp r p k L o d "expected_ult__loss" =
      Real.exp (modelCellEnv op dp r p k L o d "log__expected_ult__loss") ∧
    modelCellEnv op dp r p k L o d "mu__rpt_loss" =
      modelCellEnv op dp r p k L o d "expected_ult__loss" *
        modelCellEnv op dp r p k L o d "expected_pct_of_ult__rpt_loss" ∧
    modelCellEnv op dp r p k L o d "mu__paid_loss" =
      modelCellEnv op dp r p k L o d "expected_ult__loss" *
        modelCellEnv op dp r p k L o d "expected_pct_of_ult__paid_loss" :=
  ⟨rfl, rfl, rfl⟩

/-- C5: in every constructed model the priors are: `log__expected_ult__loss`
Normal(0, 10) over the origin-period axis; the two percent-of-ultimate
patterns Uniform(0, 2) and Uniform(0, 1.2) over the development-period axis;
and the two dispersion parameters HalfNormal(10) with an explicit `shape=`
annotation whose extents flatten to `[O, D]`, one value per (origin,
development) cell. -/
theorem C5_priors
    (op dp : List String) (r p : List (List ℚ))
    (k : List (String × String)) :
    findDecl (single_level_paid_rpt_loss_model op dp r p k)
        "log__expected_ult__loss" =
      some (.free "log__expected_ult__loss" (.normal 0 10)
        ["origin_period"] none) ∧
    findDecl (single_level_paid_rpt_loss_model op dp r p k)
        "expected_pct_of_ult__rpt_loss" =
      some (.free "expected_pct_of_ult__rpt_loss" (.uniform 0 2)
        ["development_period"] none) ∧
    findDecl (single_level_paid_rpt_loss_model op dp r p k)
        "expected_pct_of_ult__paid_loss" =
      some (.free "expected_pct_of_ult__paid_loss" (.uniform 0 1.2)
        ["development_period"] none) ∧
    findDecl (single_level_paid_rpt_loss_model op dp r p k)
        "sigma__rpt_loss" =
      some (.free "sigma__rpt_loss" (.halfNormal 10) ["origin_period"]
        (some [[op.length], [dp.length]])) ∧
    findDecl (single_level_paid_rpt_loss_model op dp r p k)
        "sigma__paid_loss" =
      some (.free "sigma__paid_loss" (.halfNormal 10) ["origin_period"]
        (some [[op.length], [dp.length]])) ∧
    flatShape (some [[op.length], [dp.length]]) = [op.length, dp.length] :=
  ⟨rfl, rfl, rfl, rfl, rfl, by simp [flatShape]⟩

/-- C8: model construction is deterministic: two calls with identical inputs
return equal model objects (the embedded builder is a pure total function of
its five arguments; the source performs no I/O and draws no samples at
construction time). -/
theorem C8_construction_deterministic
    (op₁ dp₁ : List String) (r₁ p₁ : List (List ℚ))
    (k₁ : List (String × String))
    (op₂ dp₂ : List String) (r₂ p₂ : List (List ℚ))
    (k₂ : List (String × String))
    (hop : op₁ = op₂) (hdp : dp₁ = dp₂) (hr : r₁ = r₂) (hp : p₁ = p₂)
    (hk : k₁ = k₂) :
    single_level_paid_rpt_loss_model op₁ dp₁ r₁ p₁ k₁ =
      single_level_paid_rpt_loss_model op₂ dp₂ r₂ p₂ k₂ := by
  subst hop; subst hdp; subst hr; subst hp; subst hk; rfl

/-- C8 witness: the determinism theorem applied at a concrete input. -/
theorem C8_construction_deterministic_witness :
    single_level_paid_rpt_loss_model ["2019"] ["12"] [[100]] [[80]] [] =
      single_level_paid_rpt_loss_model ["2019"] ["12"] [[100]] [[80]] [] :=
  C8_construction_deterministic ["2019"] ["12"] [[100]] [[80]] []
    ["2019"] ["12"] [[100]] [[80]] [] rfl rfl rfl rfl rfl

/-- C9 counterexample: the additional keyword configuration does not reach the
constructed model: at a concrete valid input, calling with a non-empty keyword
configuration returns a model equal to the one returned with no keyword
configuration at all, so nothing of the configuration is passed through. -/
theorem C9_kwargs_counterexample :
    single_level_paid_rpt_loss_model ["2019"] ["12"] [[100]] [[80]]
        [("chains", "4")] =
      single_level_paid_rpt_loss_model ["2019"] ["12"] [[100]] [[80]] [] ∧
    ([("chains", "4")] : List (String × String)) ≠ [] :=
  ⟨rfl, by decide⟩

/-- C9 amended: the construction call accepts additional keyword
configuration but ignores it entirely: the returned model is independent of
the keyword configuration. -/
theorem C9_kwargs_ignored
    (op dp : List String) (r p : List (List ℚ))
    (k₁ k₂ : List (String × String)) :
    single_level_paid_rpt_loss_model op dp r p k₁ =
      single_level_paid_rpt_loss_model op dp r p k₂ :=
  rfl

/-- C3 counterexample: at the cell environment `envTwoOne` (reported-loss mean
2, reported-loss dispersion 1, both strictly positive) the implied mean
`alpha / beta` of the reported-loss Gamma term of a concretely constructed
model is `(2 / 1 ^ 2) / (1 ^ 2 / 2) = 4`, which is not the mean variable's
value 2: the implied mean does not equal `mu`. -/
theorem C3_implied_mean_counterexample :
    0 < envTwoOne "mu__rpt_loss" ∧ 0 < envTwoOne "sigma__rpt_loss" ∧
    (gammaAlpha (single_level_paid_rpt_loss_model ["2019"] ["12"]
          [[100]] [[80]] []) "rpt_loss").evalWith Real.exp envTwoOne /
      (gammaBeta (single_level_paid_rpt_loss_model ["2019"] ["12"]
          [[100]] [[80]] []) "rpt_loss").evalWith Real.exp envTwoOne ≠
      envTwoOne "mu__rpt_loss" := by
  refine ⟨?_, ?_, ?_⟩
  · show (0 : ℝ) < 2
    norm_num
  · show (0 : ℝ) < 1
    norm_num
  · show (2 : ℝ) / 1 ^ 2 / (1 ^ 2 / 2) ≠ 2
    norm_num

/-- C3 amended: for every cell environment in which the mean and dispersion
variables are strictly positive, the implied mean `alpha / beta` of the
reported-loss (resp. paid-loss) Gamma term equals
`mu ^ 2 / sigma ^ 4` — not `mu`. -/
theorem C3_implied_mean_mu_sq_over_sigma_four
    (op dp : List String) (r p : List (List ℚ)) (k : List (String × String))
    (env : String → ℝ)
    (h1 : 0 < env "mu__rpt_loss") (h2 : 0 < env "sigma__rpt_loss")
    (h3 : 0 < env "mu__paid_loss") (h4 : 0 < env "sigma__paid_loss") :
    (gammaAlpha (single_level_paid_rpt_loss_model op dp r p k)
          "rpt_loss").evalWith Real.exp env /
        (gammaBeta (single_level_paid_rpt_loss_model op dp r p k)
          "rpt_loss").evalWith Real.exp env =
      env "mu__rpt_loss" ^ 2 / env "sigma__rpt_loss" ^ 4 ∧
    (gammaAlpha (single_level_paid_rpt_loss_model op dp r p k)
          "paid_loss").evalWith Real.exp env /
        (gammaBeta (single_level_paid_rpt_loss_model op dp r p k)
          "paid_loss").evalWith Real.exp env =
      env "mu__paid_loss" ^ 2 / env "sigma__paid_loss" ^ 4 := by
  constructor
  · show env "mu__rpt_loss" / env "sigma__rpt_loss" ^ 2 /
        (env "sigma__rpt_loss" ^ 2 / env "mu__rpt_loss") = _
    have hμ : env "mu__rpt_loss" ≠ 0 := ne_of_gt h1
    have hσ : env "sigma__rpt_loss" ≠ 0 := ne_of_gt h2
    field_simp
    ring
  · show env "mu__paid_loss" / env "sigma__paid_loss" ^ 2 /
        (env "sigma__paid_loss" ^ 2 / env "mu__paid_loss") = _
    have hμ : env "mu__paid_loss" ≠ 0 := ne_of_gt h3
    have hσ : env "sigma__paid_loss" ≠ 0 := ne_of_gt h4
    field_simp
    ring

/-- C3 witness: the amended claim applied at a concrete input and the
constant cell environment with value 2 everywhere. -/
theorem C3_implied_mean_witness :
    (gammaAlpha (single_level_paid_rpt_loss_model ["2019"] ["12"]
          [[100]] [[80]] []) "rpt_loss").evalWith Real.exp (fun _ => 2) /
        (gammaBeta (single_level_paid_rpt_loss_model ["2019"] ["12"]
          [[100]] [[80]] []) "rpt_loss").evalWith Real.exp (fun _ => 2) =
      (2 : ℝ) ^ 2 / (2 : ℝ) ^ 4 ∧
    (gammaAlpha (single_level_paid_rpt_loss_model ["2019"] ["12"]
          [[100]] [[80]] []) "paid_loss").evalWith Real.exp (fun _ => 2) /
        (gammaBeta (single_level_paid_rpt_loss_model ["2019"] ["12"]
          [[100]] [[80]] []) "paid_loss").evalWith Real.exp (fun _ => 2) =
      (2 : ℝ) ^ 2 / (2 : ℝ) ^ 4 :=
  C3_implied_mean_mu_sq_over_sigma_four ["2019"] ["12"] [[100]] [[80]] []
    (fun _ => 2) (by norm_num) (by norm_num) (by norm_num) (by norm_num)

/-- C10: for every cell environment in which the mean and dispersion
variables are strictly positive, the reported-loss and paid-loss Gamma
parameters satisfy `alpha * beta = 1` exactly (since
`(mu / sigma ^ 2) * (sigma ^ 2 / mu) = 1`), and the implied shape/rate mean
`alpha / beta` equals `mu ^ 2 / sigma ^ 4`. -/
theorem C10_alpha_beta_identities
    (op dp : List String) (r p : List (List ℚ)) (k : List (String × String))
    (env : String → ℝ)
    (h1 : 0 < env "mu__rpt_loss") (h2 : 0 < env "sigma__rpt_loss")
    (h3 : 0 < env "mu__paid_loss") (h4 : 0 < env "sigma__paid_loss") :
    (gammaAlpha (single_level_paid_rpt_loss_model op dp r p k)
          "rpt_loss").evalWith Real.exp env *
        (gammaBeta (single_level_paid_rpt_loss_model op dp r p k)
          "rpt_loss").evalWith Real.exp env = 1 ∧
    (gammaAlpha (single_level_paid_rpt_loss_model op dp r p k)
          "rpt_loss").evalWith Real.exp env /
        (gammaBeta (single_level_paid_rpt_loss_model op dp r p k)
          "rpt_loss").evalWith Real.exp env =
      env "mu__rpt_loss" ^ 2 / env "sigma__rpt_loss" ^ 4 ∧
    (gammaAlpha (single_level_paid_rpt_loss_model op dp r p k)
          "paid_loss").evalWith Real.exp env *
        (gammaBeta (single_level_paid_rpt_loss_model op dp r p k)
          "paid_loss").evalWith Real.exp env = 1 ∧
    (gammaAlpha (single_level_paid_rpt_loss_model op dp r p k)
          "paid_loss").evalWith Real.exp env /
        (gammaBeta (single_level_paid_rpt_loss_model op dp r p k)
          "paid_loss").evalWith Real.exp env =
      env "mu__paid_loss" ^ 2 / env "sigma__paid_loss" ^ 4 := by
  have hμr : env "mu__rpt_loss" ≠ 0 := ne_of_gt h1
  have hσr : env "sigma__rpt_loss" ≠ 0 := ne_of_gt h2
  have hμp : env "mu__paid_loss" ≠ 0 := ne_of_gt h3
  have hσp : env "sigma__paid_loss" ≠ 0 := ne_of_gt h4
  refine ⟨?_, ?_, ?_, ?_⟩
  · show env "mu__rpt_loss" / env "sigma__rpt_loss" ^ 2 *
        (env "sigma__rpt_loss" ^ 2 / env "mu__rpt_loss") = 1
    field_simp
  · show env "mu__rpt_loss" / env "sigma__rpt_loss" ^ 2 /
        (env "sigma__rpt_loss" ^ 2 / env "mu__rpt_loss") = _
    field_simp
    ring
  · show env "mu__paid_loss" / env "sigma__paid_loss" ^ 2 *
        (env "sigma__paid_loss" ^ 2 / env "mu__paid_loss") = 1
    field_simp
  · show env "mu__paid_loss" / env "sigma__paid_loss" ^ 2 /
        (env "sigma__paid_loss" ^ 2 / env "mu__paid_loss") = _
    field_simp
    ring

/-- C10 witness: the identities applied at a concrete input and the constant
cell environment with value 3 everywhere: `alpha * beta = (3 / 9) * (9 / 3) =
1` and `alpha / beta = (1 / 3) / 3 = 9 / 81`. -/
theorem C10_alpha_beta_identities_witness :
    (gammaAlpha (single_level_paid_rpt_loss_model ["2019"] ["12"]
          [[100]] [[80]] []) "rpt_loss").evalWith Real.exp (fun _ => 3) *
        (gammaBeta (single_level_paid_rpt_loss_model ["2019"] ["12"]
          [[100]] [[80]] []) "rpt_loss").evalWith Real.exp (fun _ => 3) = 1 ∧
    (gammaAlpha (single_level_paid_rpt_loss_model ["2019"] ["12"]
          [[100]] [[80]] []) "rpt_loss").evalWith Real.exp (fun _ => 3) /
        (gammaBeta (single_level_paid_rpt_loss_model ["2019"] ["12"]
          [[100]] [[80]] []) "rpt_loss").evalWith Real.exp (fun _ => 3) =
      (3 : ℝ) ^ 2 / (3 : ℝ) ^ 4 ∧
    (gammaAlpha (single_level_paid_rpt_loss_model ["2019"] ["12"]
          [[100]] [[80]] []) "paid_loss").evalWith Real.exp (fun _ => 3) *
        (gammaBeta (single_level_paid_rpt_loss_model ["2019"] ["12"]
          [[100]] [[80]] []) "paid_loss").evalWith Real.exp (fun _ => 3) = 1 ∧
    (gammaAlpha (single_level_paid_rpt_loss_model ["2019"] ["12"]
          [[100]] [[80]] []) "paid_loss").evalWith Real.exp (fun _ => 3) /
        (gammaBeta (single_level_paid_rpt_loss_model ["2019"] ["12"]
          [[100]] [[80]] []) "paid_loss").evalWith Real.exp (fun _ => 3) =
      (3 : ℝ) ^ 2 / (3 : ℝ) ^ 4 :=
  C10_alpha_beta_identities ["2019"] ["12"] [[100]] [[80]] []
    (fun _ => 3) (by norm_num) (by norm_num) (by norm_num) (by norm_num)
